import Mathlib

/-!
Shallow embedding of `src/server.py` (Restaurant Reservation Assistant MCP
server).  Python strings are modelled as Lean `String`/`List Char`, the
module-level `reservations` dict as an ordered association list (Python
dicts preserve insertion order; assignment to an existing key keeps its
position), `datetime.time` as an hour/minute record, `datetime` dates as a
year/month/day record.  The `strptime` calls are modelled after CPython's
`_strptime` regexes for the directives the source uses (`%Y %m %d %B %b
%H %M %I %p`), including the ordered-alternation digit classes and the
"format whitespace matches one or more input whitespace characters" rule.
-/

namespace ReservationMCP

/-! ## Character and string helpers (Python `str.strip`, `str.upper`, `in`) -/

def isSpaceChar (c : Char) : Bool :=
  c = ' ' || c = '\t' || c = '\n' || c = '\x0d' || c = '\x0b' || c = '\x0c'

/-- Python `str.strip()`: drop whitespace at both ends. -/
def stripChars (s : List Char) : List Char :=
  ((s.dropWhile isSpaceChar).reverse.dropWhile isSpaceChar).reverse

/-- `needle` matches at the head of the second list. -/
def leadMatch : List Char → List Char → Bool
  | [], _ => true
  | _ :: _, [] => false
  | n :: ns, c :: cs => n = c && leadMatch ns cs

/-- Python substring containment `needle in hay`. -/
def containsSub (needle : List Char) : List Char → Bool
  | [] => needle.isEmpty
  | c :: cs => leadMatch needle (c :: cs) || containsSub needle cs

def isDigitC (c : Char) : Bool := '0' ≤ c && c ≤ '9'

def digitVal (c : Char) : Nat := c.toNat - '0'.toNat

/-! ## Data model -/

/-- Python `datetime.time` restricted to the fields the source uses. -/
structure TimeOfDay where
  hour : Nat
  minute : Nat

instance : DecidableEq TimeOfDay := fun a b =>
  decidable_of_iff (a.hour = b.hour ∧ a.minute = b.minute)
    (by cases a; cases b; simp)

def TimeOfDay.toMinutes (t : TimeOfDay) : Nat := 60 * t.hour + t.minute

/-- Python `time` comparison: lexicographic on (hour, minute). -/
def TimeOfDay.ltb (a b : TimeOfDay) : Bool :=
  a.hour < b.hour || (a.hour = b.hour && a.minute < b.minute)

def TimeOfDay.leb (a b : TimeOfDay) : Bool :=
  TimeOfDay.ltb a b || a = b

/-- A calendar date (the `datetime` values produced by `parse_date`). -/
structure Date where
  year : Nat
  month : Nat
  day : Nat

instance : DecidableEq Date := fun a b =>
  decidable_of_iff (a.year = b.year ∧ a.month = b.month ∧ a.day = b.day)
    (by cases a; cases b; simp)

/-! ## Python `int()` on a stripped string (optional sign, digits, single
underscores allowed between digits). -/

def pyIntCore : List Char → Nat → Bool → Option Nat
  | [], acc, true => some acc
  | [], _, false => none
  | c :: rest, acc, prevDigit =>
    if isDigitC c then pyIntCore rest (10 * acc + digitVal c) true
    else if c = '_' && prevDigit then pyIntCore rest acc false
    else none

def pyInt (s : List Char) : Option Int :=
  match s with
  | '+' :: rest => (pyIntCore rest 0 false).map Int.ofNat
  | '-' :: rest => (pyIntCore rest 0 false).map (fun n => -(n : Int))
  | _ => (pyIntCore s 0 false).map Int.ofNat

/-! ## CPython `_strptime` directive regexes.

Each directive compiles to an ordered alternation of digit patterns; the
alternatives are tried in order, longest candidates first, exactly as the
compiled regex does.  For the formats the source uses, the regex engine's
backtracking can never produce a match that this ordered first-match
parser misses, because every 2-digit alternative consumes two digit
characters while the following format token is never a digit. -/

/-- `%H`: `(2[0-3]|[0-1]\d|\d)`. -/
def matchH : List Char → Option (Nat × List Char)
  | c1 :: c2 :: rest =>
    if c1 = '2' && ('0' ≤ c2 && c2 ≤ '3') then some (20 + digitVal c2, rest)
    else if (c1 = '0' || c1 = '1') && isDigitC c2 then
      some (10 * digitVal c1 + digitVal c2, rest)
    else if isDigitC c1 then some (digitVal c1, c2 :: rest)
    else none
  | [c1] => if isDigitC c1 then some (digitVal c1, []) else none
  | [] => none

/-- `%M`: `([0-5]\d|\d)`. -/
def matchM : List Char → Option (Nat × List Char)
  | c1 :: c2 :: rest =>
    if ('0' ≤ c1 && c1 ≤ '5') && isDigitC c2 then
      some (10 * digitVal c1 + digitVal c2, rest)
    else if isDigitC c1 then some (digitVal c1, c2 :: rest)
    else none
  | [c1] => if isDigitC c1 then some (digitVal c1, []) else none
  | [] => none

/-- `%I`: `(1[0-2]|0[1-9]|[1-9])`; also the shape of `%m` `(1[0-2]|0[1-9]|[1-9])`. -/
def matchI : List Char → Option (Nat × List Char)
  | c1 :: c2 :: rest =>
    if c1 = '1' && ('0' ≤ c2 && c2 ≤ '2') then some (10 + digitVal c2, rest)
    else if c1 = '0' && ('1' ≤ c2 && c2 ≤ '9') then some (digitVal c2, rest)
    else if '1' ≤ c1 && c1 ≤ '9' then some (digitVal c1, c2 :: rest)
    else none
  | [c1] => if '1' ≤ c1 && c1 ≤ '9' then some (digitVal c1, []) else none
  | [] => none

/-- `%d`: `(3[01]|[12]\d|0[1-9]|[1-9])`. -/
def matchD : List Char → Option (Nat × List Char)
  | c1 :: c2 :: rest =>
    if c1 = '3' && (c2 = '0' || c2 = '1') then some (30 + digitVal c2, rest)
    else if (c1 = '1' || c1 = '2') && isDigitC c2 then
      some (10 * digitVal c1 + digitVal c2, rest)
    else if c1 = '0' && ('1' ≤ c2 && c2 ≤ '9') then some (digitVal c2, rest)
    else if '1' ≤ c1 && c1 ≤ '9' then some (digitVal c1, c2 :: rest)
    else none
  | [c1] => if '1' ≤ c1 && c1 ≤ '9' then some (digitVal c1, []) else none
  | [] => none

/-- `%p`: `(AM|PM)`, case-insensitive; `true` means PM. -/
def matchP : List Char → Option (Bool × List Char)
  | c1 :: c2 :: rest =>
    if c1.toUpper = 'A' && c2.toUpper = 'M' then some (false, rest)
    else if c1.toUpper = 'P' && c2.toUpper = 'M' then some (true, rest)
    else none
  | _ => none

/-- `%Y`: `(\d\d\d\d)` — exactly four digits. -/
def matchY : List Char → Option (Nat × List Char)
  | c1 :: c2 :: c3 :: c4 :: rest =>
    if isDigitC c1 && isDigitC c2 && isDigitC c3 && isDigitC c4 then
      some (1000 * digitVal c1 + 100 * digitVal c2 + 10 * digitVal c3 + digitVal c4, rest)
    else none
  | _ => none

/-- A literal format character. -/
def matchLit (ch : Char) : List Char → Option (List Char)
  | c :: rest => if c = ch then some rest else none
  | [] => none

/-- Whitespace in a strptime format string matches `\s+` in the input. -/
def matchWS : List Char → Option (List Char)
  | c :: rest => if isSpaceChar c then some (rest.dropWhile isSpaceChar) else none
  | [] => none

/-- Case-insensitively strip a (lowercase) name from the head of the input. -/
def dropName : List Char → List Char → Option (List Char)
  | [], rest => some rest
  | _ :: _, [] => none
  | n :: ns, c :: cs => if c.toLower = n then dropName ns cs else none

/-- First name of the list that matches at the head of the input (the month
names have no prefix relations, so alternation order is immaterial). -/
def matchName (names : List (Nat × String)) (s : List Char) : Option (Nat × List Char) :=
  match names with
  | [] => none
  | (v, n) :: rest =>
    match dropName n.data s with
    | some r => some (v, r)
    | none => matchName rest s

/-- `%B`: full month names (C locale), matched case-insensitively. -/
def MONTH_NAMES : List (Nat × String) :=
  [(1, "january"), (2, "february"), (3, "march"), (4, "april"), (5, "may"),
   (6, "june"), (7, "july"), (8, "august"), (9, "september"), (10, "october"),
   (11, "november"), (12, "december")]

/-- `%b`: abbreviated month names (C locale), matched case-insensitively. -/
def MONTH_ABBRS : List (Nat × String) :=
  [(1, "jan"), (2, "feb"), (3, "mar"), (4, "apr"), (5, "may"), (6, "jun"),
   (7, "jul"), (8, "aug"), (9, "sep"), (10, "oct"), (11, "nov"), (12, "dec")]

/-! ## Calendar validation performed by the `datetime` constructor. -/

def isLeapYear (y : Nat) : Bool := (y % 4 = 0 && y % 100 ≠ 0) || y % 400 = 0

def daysInMonth (y m : Nat) : Nat :=
  if m = 2 then (if isLeapYear y then 29 else 28)
  else if m = 4 || m = 6 || m = 9 || m = 11 then 30
  else 31

/-- `datetime(year, month, day)`: `MINYEAR = 1`, day within the month.
The regexes already guarantee `1 ≤ month ≤ 12` and `1 ≤ day ≤ 31`. -/
def mkDate (y m d : Nat) : Option Date :=
  if 1 ≤ y && y ≤ 9999 && d ≤ daysInMonth y m then some ⟨y, m, d⟩ else none

/-! ## `parse_time` (src/server.py lines 35-50) -/

def hour12to24 (h : Nat) (pm : Bool) : Nat :=
  if pm then (if h = 12 then 12 else h + 12)
  else (if h = 12 then 0 else h)

/-- `datetime.strptime(s, '%I:%M%p').time()`. -/
def strpIMp (s : List Char) : Option TimeOfDay :=
  (matchI s).bind fun p1 =>
  (matchLit ':' p1.2).bind fun r2 =>
  (matchM r2).bind fun p2 =>
  (matchP p2.2).bind fun p3 =>
  if p3.2.isEmpty then some ⟨hour12to24 p1.1 p3.1, p2.1⟩ else none

/-- `datetime.strptime(s, '%I%p').time()`. -/
def strpIp (s : List Char) : Option TimeOfDay :=
  (matchI s).bind fun p1 =>
  (matchP p1.2).bind fun p3 =>
  if p3.2.isEmpty then some ⟨hour12to24 p1.1 p3.1, 0⟩ else none

/-- `datetime.strptime(s, '%H:%M').time()`. -/
def strpHM (s : List Char) : Option TimeOfDay :=
  (matchH s).bind fun p1 =>
  (matchLit ':' p1.2).bind fun r2 =>
  (matchM r2).bind fun p2 =>
  if p2.2.isEmpty then some ⟨p1.1, p2.1⟩ else none

/-- `parse_time` from src/server.py: strip and upper-case; if the string
contains `PM` or `AM`, remove all spaces and try `%I:%M%p` then `%I%p`;
otherwise `%H:%M` when a colon is present, else `int()` and `time(hour, 0)`
(which raises unless `0 ≤ hour ≤ 23`).  `none` models a raised
`ValueError`. -/
def parse_time (time_str : String) : Option TimeOfDay :=
  let s := (stripChars time_str.data).map Char.toUpper
  if containsSub ['P', 'M'] s || containsSub ['A', 'M'] s then
    let s2 := s.filter (fun c => c ≠ ' ')
    match strpIMp s2 with
    | some t => some t
    | none => strpIp s2
  else
    if s.contains ':' then strpHM s
    else
      (pyInt s).bind fun h =>
        if 0 ≤ h && h < 24 then some ⟨h.toNat, 0⟩ else none

/-! ## `parse_date` (src/server.py lines 53-73) -/

/-- `'%Y-%m-%d'`. -/
def fmtISO (s : List Char) : Option Date :=
  (matchY s).bind fun p1 =>
  (matchLit '-' p1.2).bind fun r2 =>
  (matchI r2).bind fun p2 =>
  (matchLit '-' p2.2).bind fun r3 =>
  (matchD r3).bind fun p3 =>
  if p3.2.isEmpty then mkDate p1.1 p2.1 p3.1 else none

/-- `'%m/%d/%Y'`. -/
def fmtMDY (s : List Char) : Option Date :=
  (matchI s).bind fun p1 =>
  (matchLit '/' p1.2).bind fun r2 =>
  (matchD r2).bind fun p2 =>
  (matchLit '/' p2.2).bind fun r3 =>
  (matchY r3).bind fun p3 =>
  if p3.2.isEmpty then mkDate p3.1 p1.1 p2.1 else none

/-- `'%d/%m/%Y'`. -/
def fmtDMY (s : List Char) : Option Date :=
  (matchD s).bind fun p1 =>
  (matchLit '/' p1.2).bind fun r2 =>
  (matchI r2).bind fun p2 =>
  (matchLit '/' p2.2).bind fun r3 =>
  (matchY r3).bind fun p3 =>
  if p3.2.isEmpty then mkDate p3.1 p2.1 p1.1 else none

/-- `'%B %d, %Y'` / `'%b %d, %Y'` (with comma) and `'%B %d %Y'` /
`'%b %d %Y'` (without), parameterized by the month-name table. -/
def fmtMonthName (names : List (Nat × String)) (comma : Bool) (s : List Char) : Option Date :=
  (matchName names s).bind fun p1 =>
  (matchWS p1.2).bind fun r2 =>
  (matchD r2).bind fun p2 =>
  (if comma then (matchLit ',' p2.2).bind matchWS else matchWS p2.2).bind fun r3 =>
  (matchY r3).bind fun p3 =>
  if p3.2.isEmpty then mkDate p3.1 p1.1 p2.1 else none

/-- `parse_date` from src/server.py: strip, then try the format list in
order; the first format that parses wins.  `none` models the
`ValueError` raised when every format fails. -/
def parse_date (date_str : String) : Option Date :=
  let s := stripChars date_str.data
  match fmtISO s with
  | some d => some d
  | none =>
  match fmtMDY s with
  | some d => some d
  | none =>
  match fmtDMY s with
  | some d => some d
  | none =>
  match fmtMonthName MONTH_NAMES true s with
  | some d => some d
  | none =>
  match fmtMonthName MONTH_ABBRS true s with
  | some d => some d
  | none =>
  match fmtMonthName MONTH_NAMES false s with
  | some d => some d
  | none => fmtMonthName MONTH_ABBRS false s

/-! ## `strftime` rendering used by the source -/

/-- `%02d`-style zero padding (str.zfill to width 2). -/
def pad2 (n : Nat) : String := if n < 10 then "0" ++ toString n else toString n

/-- Zero padding to width 4, as in `f"{count:04d}"` and `%Y`. -/
def pad4 (n : Nat) : String :=
  if n < 10 then "000" ++ toString n
  else if n < 100 then "00" ++ toString n
  else if n < 1000 then "0" ++ toString n
  else toString n

/-- `date.strftime('%Y-%m-%d')` — the canonical date key. -/
def fmtDate (d : Date) : String := pad4 d.year ++ "-" ++ pad2 d.month ++ "-" ++ pad2 d.day

/-- `time.strftime('%H:%M')` — the canonical time key. -/
def fmtTimeHM (t : TimeOfDay) : String := pad2 t.hour ++ ":" ++ pad2 t.minute

/-- `time.strftime('%I:%M %p')`. -/
def fmtTime12 (t : TimeOfDay) : String :=
  let h12 := if t.hour % 12 = 0 then 12 else t.hour % 12
  pad2 h12 ++ ":" ++ pad2 t.minute ++ " " ++ (if t.hour < 12 then "AM" else "PM")

def monthLongName (m : Nat) : String :=
  match m with
  | 1 => "January" | 2 => "February" | 3 => "March" | 4 => "April"
  | 5 => "May" | 6 => "June" | 7 => "July" | 8 => "August"
  | 9 => "September" | 10 => "October" | 11 => "November" | 12 => "December"
  | _ => ""

/-- `date.strftime('%B %d, %Y')`. -/
def fmtDateLong (d : Date) : String :=
  monthLongName d.month ++ " " ++ pad2 d.day ++ ", " ++ pad4 d.year

/-- Python `str.strip()` on a `String`. -/
def pyStrip (s : String) : String := String.mk (stripChars s.data)

/-- Python `str.upper()` restricted to ASCII (all ids in play are ASCII). -/
def pyUpper (s : String) : String := String.mk (s.data.map Char.toUpper)

/-- Python `str.lower()` restricted to ASCII. -/
def pyLower (s : String) : String := String.mk (s.data.map Char.toLower)

/-! ## Static inventory and operating hours (src/server.py lines 13-26) -/

structure Table where
  id : Nat
  capacity : Nat
  location : String

instance : DecidableEq Table := fun a b =>
  decidable_of_iff (a.id = b.id ∧ a.capacity = b.capacity ∧ a.location = b.location)
    (by cases a; cases b; simp)

def TABLES : List Table :=
  [⟨1, 2, "Window"⟩, ⟨2, 2, "Window"⟩, ⟨3, 4, "Main Hall"⟩,
   ⟨4, 4, "Main Hall"⟩, ⟨5, 6, "Private"⟩, ⟨6, 8, "Main Hall"⟩]

def OPENING_TIME : TimeOfDay := ⟨11, 0⟩
def CLOSING_TIME : TimeOfDay := ⟨21, 0⟩
def SLOT_DURATION : Nat := 30

/-! ## Reservation records and the `reservations` dict -/

/-- One entry of the `reservations` dict (src/server.py lines 197-209). -/
structure Reservation where
  id : String
  customer_name : String
  party_size : Int
  date : String
  time : String
  table_id : Nat
  table_location : String
  phone : String
  email : String
  notes : String
  created_at : String

instance : DecidableEq Reservation := fun a b =>
  decidable_of_iff (a.id = b.id ∧ a.customer_name = b.customer_name ∧
      a.party_size = b.party_size ∧ a.date = b.date ∧ a.time = b.time ∧
      a.table_id = b.table_id ∧ a.table_location = b.table_location ∧
      a.phone = b.phone ∧ a.email = b.email ∧ a.notes = b.notes ∧
      a.created_at = b.created_at)
    (by cases a; cases b; simp)

/-- The module-level `reservations` dict, as an insertion-ordered
association list (Python dict semantics). -/
abbrev Ledger := List (String × Reservation)

/-- `reservations[k] = v`: assignment to an existing key updates it in
place (keeping its position); a new key is appended at the end. -/
def dictInsert (l : Ledger) (k : String) (v : Reservation) : Ledger :=
  if (l.map Prod.fst).contains k then
    l.map (fun p => if p.1 = k then (k, v) else p)
  else l ++ [(k, v)]

/-- `del reservations[k]`. -/
def dictDel (l : Ledger) (k : String) : Ledger :=
  l.filter (fun p => p.1 ≠ k)

/-- `generate_reservation_id` (src/server.py lines 29-32):
`f"RES{len(reservations) + 1:04d}"`. -/
def generate_reservation_id (reservations : Ledger) : String :=
  "RES" ++ pad4 (reservations.length + 1)

/-! ## Slot grid and hours (src/server.py lines 76-96) -/

/-- `is_within_hours`: `OPENING_TIME <= check_time < CLOSING_TIME`. -/
def is_within_hours (check_time : TimeOfDay) : Bool :=
  TimeOfDay.leb OPENING_TIME check_time && TimeOfDay.ltb check_time CLOSING_TIME

/-- `is_valid_timeslot`: `check_time.minute in (0, 30)`. -/
def is_valid_timeslot (check_time : TimeOfDay) : Bool :=
  check_time.minute = 0 || check_time.minute = 30

/-- `current += timedelta(minutes=k)` followed by `.time()` (wraps at
midnight, though the loop below never reaches it). -/
def addMinutes (t : TimeOfDay) (k : Nat) : TimeOfDay :=
  let total := t.toMinutes + k
  ⟨(total / 60) % 24, total % 60⟩

/-- The `while current.time() < end.time()` loop of `get_time_slots`,
with enough fuel for a full day of 30-minute steps. -/
def slotsAux : Nat → TimeOfDay → List TimeOfDay
  | 0, _ => []
  | fuel + 1, cur =>
    if TimeOfDay.ltb cur CLOSING_TIME then
      cur :: slotsAux fuel (addMinutes cur SLOT_DURATION)
    else []

/-- `get_time_slots` (src/server.py lines 86-96). -/
def get_time_slots : List TimeOfDay := slotsAux 48 OPENING_TIME

/-! ## `find_available_tables` (src/server.py lines 99-116) -/

/-- The conflict scan inside `find_available_tables`: some reservation has
this date key, this table id and this time key. -/
def hasConflict (reservations : Ledger) (date : Date) (req_time : TimeOfDay) (tableId : Nat) : Bool :=
  reservations.any (fun p =>
    p.2.date = fmtDate date && p.2.table_id = tableId && p.2.time = fmtTimeHM req_time)

/-- `find_available_tables`: filter `TABLES` by `capacity >= party_size`,
then keep (in order) the tables with no conflicting reservation. -/
def find_available_tables (reservations : Ledger) (date : Date) (req_time : TimeOfDay)
    (party_size : Int) : List Table :=
  let suitable_tables := TABLES.filter (fun t => party_size ≤ (t.capacity : Int))
  suitable_tables.filter (fun t => !hasConflict reservations date req_time t.id)

/-! ## Message strings of the tools.

The user-facing strings are reproduced from the source.  The `ValueError`
text raised inside `strptime`/`int()`/`time()` (surfaced via `str(e)`) is
CPython-internal; it is modelled by `timeErrMsg`. -/

def INVALID_SLOT_MSG : String :=
  "Invalid time slot. Please choose a time on the hour or half-hour (e.g., 12:00, 12:30, 1:00, 1:30). We have 30-minute time slots."

def closedMsg (t : TimeOfDay) : String :=
  "Sorry, we\x27re closed at " ++ fmtTime12 t ++ ". Operating hours: 11:00 AM - 9:00 PM"

def PARTY_SIZE_MSG : String := "Sorry, we can only accommodate parties of 1-8 people"

/-- The `ValueError` message built in `parse_date` itself. -/
def dateErrMsg (s : String) : String :=
  "Could not parse date: " ++ s ++ ". Use format YYYY-MM-DD"

/-- Modelled stand-in for the CPython `ValueError` text of a failed
`parse_time` (the source only embeds it via `str(e)`). -/
def timeErrMsg (s : String) : String :=
  "could not parse time: " ++ s

def joinComma (l : List String) : String :=
  match l with
  | [] => ""
  | x :: xs => xs.foldl (fun acc y => acc ++ ", " ++ y) x

def tableDescr (t : Table) : String :=
  "Table " ++ toString t.id ++ " (" ++ toString t.capacity ++ " seats, " ++ t.location ++ ")"

/-! ## `check_availability` (src/server.py lines 119-155) -/

def check_availability (reservations : Ledger) (date : String) (time_str : String)
    (party_size : Int) : String × Ledger :=
  match parse_date date with
  | none => ("Error: " ++ dateErrMsg date, reservations)
  | some parsed_date =>
  match parse_time time_str with
  | none => ("Error: " ++ timeErrMsg time_str, reservations)
  | some parsed_time =>
  if !is_valid_timeslot parsed_time then (INVALID_SLOT_MSG, reservations)
  else if !is_within_hours parsed_time then (closedMsg parsed_time, reservations)
  else if party_size < 1 || party_size > 8 then (PARTY_SIZE_MSG, reservations)
  else
    let available_tables := find_available_tables reservations parsed_date parsed_time party_size
    if !available_tables.isEmpty then
      ("✓ Available! Tables for " ++ toString party_size ++ " people on "
        ++ fmtDateLong parsed_date ++ " at " ++ fmtTime12 parsed_time ++ ":\n"
        ++ joinComma (available_tables.map tableDescr), reservations)
    else
      ("✗ No tables available for " ++ toString party_size ++ " people on "
        ++ fmtDateLong parsed_date ++ " at " ++ fmtTime12 parsed_time, reservations)

/-! ## `book_table` (src/server.py lines 158-231).

`datetime.now().isoformat()` is modelled by the explicit `now`
parameter; it never influences control flow. -/

def noTablesMsg (party_size : Int) (d : Date) (t : TimeOfDay) : String :=
  "Sorry, no tables available for " ++ toString party_size ++ " people on "
    ++ fmtDateLong d ++ " at " ++ fmtTime12 t
    ++ ". Try get_available_timeslots to find alternatives."

/-- The dict literal stored at `reservations[res_id]` (src/server.py
lines 197-209). -/
def newReservation (res_id : String) (name : String) (party_size : Int)
    (parsed_date : Date) (parsed_time : TimeOfDay) (table : Table)
    (phone email notes now : String) : Reservation :=
  { id := res_id, customer_name := name, party_size := party_size,
    date := fmtDate parsed_date, time := fmtTimeHM parsed_time,
    table_id := table.id, table_location := table.location,
    phone := phone, email := email, notes := notes, created_at := now }

/-- The stripped confirmation f-string of `book_table`. -/
def confirmMsg (res_id : String) (name : String) (party_size : Int)
    (parsed_date : Date) (parsed_time : TimeOfDay) (table : Table)
    (phone email notes : String) : String :=
  pyStrip ("\n✓ Reservation Confirmed!\n\nReservation ID: " ++ res_id
    ++ "\nCustomer: " ++ name
    ++ "\nParty Size: " ++ toString party_size ++ " people"
    ++ "\nDate: " ++ fmtDateLong parsed_date
    ++ "\nTime: " ++ fmtTime12 parsed_time
    ++ "\nTable: " ++ toString table.id ++ " (" ++ toString table.capacity
    ++ " seats, " ++ table.location ++ ")\n"
    ++ (if phone ≠ "" then "Phone: " ++ phone ++ "\n" else "")
    ++ (if email ≠ "" then "Email: " ++ email ++ "\n" else "")
    ++ (if notes ≠ "" then "Notes: " ++ notes ++ "\n" else ""))

def book_table (reservations : Ledger) (name : String) (party_size : Int)
    (date : String) (time_str : String) (phone : String) (email : String)
    (notes : String) (now : String) : String × Ledger :=
  match parse_date date with
  | none => ("Error creating reservation: " ++ dateErrMsg date, reservations)
  | some parsed_date =>
  match parse_time time_str with
  | none => ("Error creating reservation: " ++ timeErrMsg time_str, reservations)
  | some parsed_time =>
  if !is_valid_timeslot parsed_time then (INVALID_SLOT_MSG, reservations)
  else if !is_within_hours parsed_time then (closedMsg parsed_time, reservations)
  else if party_size < 1 || party_size > 8 then (PARTY_SIZE_MSG, reservations)
  else
    match find_available_tables reservations parsed_date parsed_time party_size with
    | [] => (noTablesMsg party_size parsed_date parsed_time, reservations)
    | table :: _ =>
      let res_id := generate_reservation_id reservations
      (confirmMsg res_id name party_size parsed_date parsed_time table phone email notes,
       dictInsert reservations res_id
         (newReservation res_id name party_size parsed_date parsed_time table phone email notes now))

/-! ## `cancel_reservation` (src/server.py lines 234-262) -/

def notFoundMsg (rid : String) : String :=
  "✗ Reservation " ++ rid ++ " not found. Please check the ID and try again."

def cancelledMsg (rid : String) (res : Reservation) : String :=
  "\n✓ Reservation Cancelled\n\nReservation ID: " ++ rid
    ++ "\nCustomer: " ++ res.customer_name
    ++ "\nDate: " ++ res.date
    ++ "\nTime: " ++ res.time
    ++ "\nParty Size: " ++ toString res.party_size ++ " people"
    ++ "\n\nThe table has been released and is now available for booking.\n"

def cancel_reservation (reservations : Ledger) (reservation_id : String) : String × Ledger :=
  let rid := pyStrip (pyUpper reservation_id)
  match reservations.lookup rid with
  | some res => (cancelledMsg rid res, dictDel reservations rid)
  | none => (notFoundMsg rid, reservations)

/-! ## `view_reservations` (src/server.py lines 265-315) -/

/-- Python string `<`: lexicographic by code point. -/
def strLtB : List Char → List Char → Bool
  | [], [] => false
  | [], _ :: _ => true
  | _ :: _, [] => false
  | a :: as, b :: bs => a < b || (a = b && strLtB as bs)

/-- The sort key `(x['date'], x['time'])` compared as a Python tuple. -/
def keyLt (a b : Reservation) : Bool :=
  strLtB a.date.data b.date.data || (a.date = b.date && strLtB a.time.data b.time.data)

/-- Stable insertion preserving input order on equal keys, modelling
Python's stable `sorted`. -/
def insSorted (x : Reservation) : List Reservation → List Reservation
  | [] => [x]
  | y :: ys => if keyLt y x then y :: insSorted x ys else x :: y :: ys

def sortRes : List Reservation → List Reservation
  | [] => []
  | x :: xs => insSorted x (sortRes xs)

def resEntry (res : Reservation) : String :=
  "---\nID: " ++ res.id
    ++ "\nCustomer: " ++ res.customer_name
    ++ "\nDate: " ++ res.date ++ " at " ++ res.time
    ++ "\nParty: " ++ toString res.party_size ++ " people"
    ++ "\nTable: " ++ toString res.table_id ++ " (" ++ res.table_location ++ ")\n"
    ++ (if res.phone ≠ "" then "Phone: " ++ res.phone ++ "\n" else "")
    ++ (if res.email ≠ "" then "Email: " ++ res.email ++ "\n" else "")
    ++ (if res.notes ≠ "" then "Notes: " ++ res.notes ++ "\n" else "")

/-- Python truthiness of an optional string argument: `None` and `""` are
both falsy. -/
def truthy : Option String → Bool
  | some s => !s.isEmpty
  | none => false

/-- The tail of `view_reservations` after the date filter: optional
case-insensitive substring filter on the customer name, then render. -/
def viewRest (filtered : List Reservation) (customer_name : Option String) : String :=
  let filtered2 :=
    if truthy customer_name then
      filtered.filter (fun r =>
        containsSub (pyLower (customer_name.getD "")).data (pyLower r.customer_name).data)
    else filtered
  if filtered2.isEmpty then "No reservations found matching your criteria."
  else
    pyStrip ("Found " ++ toString filtered2.length ++ " reservation(s):\n\n"
      ++ String.join ((sortRes filtered2).map resEntry))

def view_reservations (reservations : Ledger) (date : Option String)
    (customer_name : Option String) : String × Ledger :=
  if reservations.isEmpty then ("No reservations found.", reservations)
  else
    let vals := reservations.map Prod.snd
    match date with
    | some d =>
      if d.isEmpty then (viewRest vals customer_name, reservations)
      else
        match parse_date d with
        | none => ("Error parsing date: " ++ dateErrMsg d, reservations)
        | some pd =>
          (viewRest (vals.filter (fun r => r.date = fmtDate pd)) customer_name, reservations)
    | none => (viewRest vals customer_name, reservations)

/-! ## `get_available_timeslots` (src/server.py lines 318-356) -/

def get_available_timeslots (reservations : Ledger) (date : String)
    (party_size : Int) : String × Ledger :=
  match parse_date date with
  | none => ("Error: " ++ dateErrMsg date, reservations)
  | some parsed_date =>
  if party_size < 1 || party_size > 8 then (PARTY_SIZE_MSG, reservations)
  else
    let available_slots := (get_time_slots.filter (fun slot =>
        !(find_available_tables reservations parsed_date slot party_size).isEmpty)).map fmtTime12
    if !available_slots.isEmpty then
      ("Available time slots for " ++ toString party_size ++ " people on "
        ++ fmtDateLong parsed_date ++ ":\n\n" ++ joinComma available_slots
        ++ "\n\nUse book_table to reserve your preferred time.\n", reservations)
    else
      ("Sorry, no available slots for " ++ toString party_size ++ " people on "
        ++ fmtDateLong parsed_date ++ ". The restaurant is fully booked.", reservations)

/-! ## Sequential traces of the two mutating tools -/

/-- One sequential call of a mutating tool. -/
inductive Step where
  | book (name : String) (party_size : Int) (date time_str phone email notes now : String)
  | cancel (reservation_id : String)

/-- The ledger after executing one step. -/
def runStep (l : Ledger) : Step → Ledger
  | .book n p d t ph em nt now => (book_table l n p d t ph em nt now).2
  | .cancel rid => (cancel_reservation l rid).2

/-- The ledger after executing a whole trace from the empty ledger. -/
def run (steps : List Step) : Ledger := steps.foldl runStep []

/-! ## The no-double-booking invariant -/

/-- The conflict key of a reservation: `(table_id, date, time)`. -/
def slotKey (r : Reservation) : Nat × String × String := (r.table_id, r.date, r.time)

/-- No two reservations in the ledger occupy the same (table, date, time). -/
def SlotInv (l : Ledger) : Prop := l.Pairwise (fun a b => slotKey a.2 ≠ slotKey b.2)

/-- Dict well-formedness (distinct keys) together with `SlotInv`. -/
def LedgerInv (l : Ledger) : Prop := (l.map Prod.fst).Nodup ∧ SlotInv l

/-! ## Concrete sample data used by witnesses and counterexamples -/

/-- The record created by `book_table [] "Alice" 2 "2025-12-15" "19:00" "" "" "" "T1"`. -/
def resAlice : Reservation :=
  newReservation "RES0001" "Alice" 2 ⟨2025, 12, 15⟩ ⟨19, 0⟩ ⟨1, 2, "Window"⟩ "" "" "" "T1"

/-- A one-entry ledger holding `resAlice`. -/
def sampleLedger : Ledger := [("RES0001", resAlice)]

/-! ## Test-input builders for the time-normalization claim.

These render the input families the spec describes (12-hour forms with or
without a colon, with or without a space before the suffix, in any letter
case, and the canonical 24-hour form); they are statement-side
constructions, not translations of source code. -/

/-- An AM/PM suffix in any of the four letter-case combinations
(`pm`, `pM`, `Pm`, `PM`); `pm = true` means PM. -/
def suffixStr (pm up1 up2 : Bool) : String :=
  String.mk [(if up1 then (if pm then 'P' else 'A') else (if pm then 'p' else 'a')),
             (if up2 then 'M' else 'm')]

/-- A 12-hour input with a colon: `"7:05 pm"`, `"11:30PM"`, ... -/
def twelveColon (h12 m : Nat) (sp pm up1 up2 : Bool) : String :=
  toString h12 ++ ":" ++ pad2 m ++ (if sp then " " else "") ++ suffixStr pm up1 up2

/-- A 12-hour input without a colon (whole hours): `"7pm"`, `"12 AM"`, ... -/
def twelveBare (h12 : Nat) (sp pm up1 up2 : Bool) : String :=
  toString h12 ++ (if sp then " " else "") ++ suffixStr pm up1 up2

/-- The equivalent 24-hour `HH:MM` input. -/
def twentyFour (h m : Nat) : String := pad2 h ++ ":" ++ pad2 m

theorem mem_dictInsert {l : Ledger} {k : String} {v : Reservation} {p : String × Reservation}
    (h : p ∈ dictInsert l k v) : p ∈ l ∨ p = (k, v) := by
  unfold dictInsert at h
  split at h
  · rcases List.mem_map.1 h with ⟨q, hq, hEq⟩
    by_cases hk : q.1 = k
    · right; rw [← hEq]; simp [hk]
    · left; rw [← hEq]; simp only [if_neg hk]; exact hq
  · rcases List.mem_append.1 h with h1 | h1
    · exact Or.inl h1
    · right; simpa using h1

theorem self_mem_dictInsert (l : Ledger) (k : String) (v : Reservation) :
    (k, v) ∈ dictInsert l k v := by
  unfold dictInsert
  split
  · next hc =>
    have hmem : k ∈ l.map Prod.fst := by simpa using hc
    rcases List.mem_map.1 hmem with ⟨q, hq, hqk⟩
    exact List.mem_map.2 ⟨q, hq, by simp [hqk]⟩
  · exact List.mem_append.2 (Or.inr (by simp))

theorem keys_map_replace (l : Ledger) (k : String) (v : Reservation) :
    (l.map (fun p => if p.1 = k then (k, v) else p)).map Prod.fst = l.map Prod.fst := by
  induction l with
  | nil => rfl
  | cons a l ih => by_cases h : a.1 = k <;> simp [h, ih]

theorem nodup_keys_dictInsert (l : Ledger) (k : String) (v : Reservation)
    (h : (l.map Prod.fst).Nodup) : ((dictInsert l k v).map Prod.fst).Nodup := by
  unfold dictInsert
  split
  · rw [keys_map_replace]; exact h
  · next hc =>
    have hk : k ∉ l.map Prod.fst := by simpa using hc
    simp [List.nodup_append, h, hk]

theorem slotInv_replace (k : String) (v : Reservation) :
    ∀ l : Ledger, (l.map Prod.fst).Nodup → SlotInv l →
      (∀ p ∈ l, slotKey p.2 ≠ slotKey v) →
      SlotInv (l.map (fun p => if p.1 = k then (k, v) else p)) := by
  intro l
  induction l with
  | nil => intro _ _ _; exact List.Pairwise.nil
  | cons a l ih =>
    intro hnd hinv hfresh
    rw [List.map_cons, List.nodup_cons] at hnd
    rw [List.map_cons]
    refine List.Pairwise.cons ?_ (ih hnd.2 (List.Pairwise.of_cons hinv)
      (fun p hp => hfresh p (List.mem_cons_of_mem a hp)))
    intro q hq
    rcases List.mem_map.1 hq with ⟨b, hb, hbq⟩
    by_cases hak : a.1 = k
    · have hbk : b.1 ≠ k := by
        intro hbk
        exact hnd.1 (by rw [hak, ← hbk]; exact List.mem_map.2 ⟨b, hb, rfl⟩)
      rw [← hbq]; simp only [if_pos hak, if_neg hbk]
      exact fun hEq => hfresh b (List.mem_cons_of_mem a hb) (hEq ▸ rfl)
    · rw [← hbq]; simp only [if_neg hak]
      by_cases hbk : b.1 = k
      · simp only [if_pos hbk]
        exact hfresh a (List.mem_cons_self a l)
      · simp only [if_neg hbk]
        exact (List.pairwise_cons.1 hinv).1 b hb

theorem slotInv_dictInsert {l : Ledger} (k : String) {v : Reservation}
    (hnd : (l.map Prod.fst).Nodup) (hinv : SlotInv l)
    (hfresh : ∀ p ∈ l, slotKey p.2 ≠ slotKey v) : SlotInv (dictInsert l k v) := by
  unfold dictInsert
  split
  · exact slotInv_replace k v l hnd hinv hfresh
  · unfold SlotInv
    rw [List.pairwise_append]
    refine ⟨hinv, List.pairwise_singleton _ _, ?_⟩
    intro a ha b hb
    have : b = (k, v) := by simpa using hb
    rw [this]
    exact hfresh a ha

theorem ledgerInv_dictDel {l : Ledger} (k : String) (h : LedgerInv l) :
    LedgerInv (dictDel l k) := by
  obtain ⟨h1, h2⟩ := h
  have hsub : List.Sublist (dictDel l k) l := List.filter_sublist l
  exact ⟨List.Nodup.sublist (List.Sublist.map Prod.fst hsub) h1,
    List.Pairwise.sublist hsub h2⟩

theorem mem_find_available {l : Ledger} {d : Date} {t : TimeOfDay} {ps : Int} {tb : Table} :
    tb ∈ find_available_tables l d t ps ↔
      tb ∈ TABLES ∧ ps ≤ (tb.capacity : Int) ∧ hasConflict l d t tb.id = false := by
  unfold find_available_tables
  simp only [List.mem_filter, decide_eq_true_eq, Bool.not_eq_true']
  tauto

theorem hasConflict_eq_false_iff {l : Ledger} {d : Date} {t : TimeOfDay} {tid : Nat} :
    hasConflict l d t tid = false ↔
      ∀ p ∈ l, slotKey p.2 ≠ (tid, fmtDate d, fmtTimeHM t) := by
  unfold hasConflict slotKey
  rw [List.any_eq_false]
  constructor
  · intro h p hp hEq
    have := h p hp
    simp only [Prod.mk.injEq] at hEq
    simp [hEq.1, hEq.2.1, hEq.2.2] at this
  · intro h p hp
    have := h p hp
    by_contra hb
    simp only [Bool.not_eq_false, Bool.and_eq_true, decide_eq_true_eq] at hb
    exact this (by simp [Prod.mk.injEq, hb.1.1, hb.1.2, hb.2])

theorem book_table_snd (l : Ledger) (name : String) (ps : Int) (d ts ph em nt now : String) :
    (book_table l name ps d ts ph em nt now).2 = l ∨
    ∃ pd pt tbl rest, parse_date d = some pd ∧ parse_time ts = some pt ∧
      is_valid_timeslot pt = true ∧ is_within_hours pt = true ∧
      (1 ≤ ps ∧ ps ≤ 8) ∧
      find_available_tables l pd pt ps = tbl :: rest ∧
      (book_table l name ps d ts ph em nt now).2 =
        dictInsert l (generate_reservation_id l)
          (newReservation (generate_reservation_id l) name ps pd pt tbl ph em nt now) := by
  unfold book_table
  cases hd : parse_date d with
  | none => exact Or.inl rfl
  | some pd =>
    cases ht : parse_time ts with
    | none => exact Or.inl rfl
    | some pt =>
      dsimp only
      by_cases h1 : is_valid_timeslot pt
      · rw [if_neg (by simp [h1])]
        by_cases h2 : is_within_hours pt
        · rw [if_neg (by simp [h2])]
          by_cases h3 : ps < 1 || ps > 8
          · rw [if_pos h3]; exact Or.inl rfl
          · rw [if_neg h3]
            cases hf : find_available_tables l pd pt ps with
            | nil => exact Or.inl rfl
            | cons tbl rest =>
              refine Or.inr ⟨pd, pt, tbl, rest, rfl, rfl, h1, h2, ?_, hf, rfl⟩
              simp only [Bool.or_eq_true, decide_eq_true_eq, not_or] at h3
              omega
        · rw [if_pos (by simp [h2])]; exact Or.inl rfl
      · rw [if_pos (by simp [h1])]; exact Or.inl rfl

theorem cancel_snd (l : Ledger) (rid0 : String) :
    (cancel_reservation l rid0).2 = l ∨
    (cancel_reservation l rid0).2 = dictDel l (pyStrip (pyUpper rid0)) := by
  unfold cancel_reservation
  cases h : l.lookup (pyStrip (pyUpper rid0)) <;> simp [h]

theorem ledgerInv_book (l : Ledger) (hInv : LedgerInv l)
    (name : String) (ps : Int) (d ts ph em nt now : String) :
    LedgerInv (book_table l name ps d ts ph em nt now).2 := by
  rcases book_table_snd l name ps d ts ph em nt now with
    h | ⟨pd, pt, tbl, rest, _, _, _, _, _, hf, heq⟩
  · rw [h]; exact hInv
  · rw [heq]
    have htbl : tbl ∈ find_available_tables l pd pt ps := by
      rw [hf]; exact List.mem_cons_self _ _
    have hnc := (mem_find_available.1 htbl).2.2
    have hfresh : ∀ p ∈ l,
        slotKey p.2 ≠ slotKey (newReservation (generate_reservation_id l) name ps pd pt tbl ph em nt now) := by
      intro p hp
      have := hasConflict_eq_false_iff.1 hnc p hp
      simpa [newReservation, slotKey] using this
    exact ⟨nodup_keys_dictInsert l _ _ hInv.1,
      slotInv_dictInsert _ hInv.1 hInv.2 hfresh⟩

theorem ledgerInv_runStep (l : Ledger) (s : Step) (h : LedgerInv l) :
    LedgerInv (runStep l s) := by
  cases s with
  | book n p d t ph em nt now => exact ledgerInv_book l h n p d t ph em nt now
  | cancel rid =>
    rcases cancel_snd l rid with h2 | h2
    · rw [runStep, h2]; exact h
    · rw [runStep, h2]; exact ledgerInv_dictDel _ h

theorem ledgerInv_run (steps : List Step) : LedgerInv (run steps) := by
  suffices h : ∀ l, LedgerInv l → LedgerInv (steps.foldl runStep l) by
    exact h [] ⟨List.nodup_nil, List.Pairwise.nil⟩
  induction steps with
  | nil => intro l h; exact h
  | cons s ss ih => intro l h; exact ih _ (ledgerInv_runStep l s h)

/-- **C1**: No double-booking.  (1) For every sequence of `book_table` and
`cancel_reservation` calls executed sequentially from the empty ledger,
the ledger never holds two reservations with the same
`(table_id, date, time)` triple (in this implementation every stored
record is active, since cancellation deletes the record).  (2) `book_table`
only inserts a record for a table that had no reservation at the requested
canonical slot: any entry of the output ledger that was not already
present conflicts with no entry of the input ledger. -/
theorem C1_no_double_booking :
    (∀ steps : List Step, SlotInv (run steps)) ∧
    (∀ (l : Ledger) (name : String) (ps : Int) (d ts ph em nt now : String)
        (p : String × Reservation),
        p ∈ (book_table l name ps d ts ph em nt now).2 → p ∉ l →
        ∀ q ∈ l, slotKey q.2 ≠ slotKey p.2) := by
  constructor
  · intro steps
    exact (ledgerInv_run steps).2
  · intro l name ps d ts ph em nt now p hp hnew q hq
    rcases book_table_snd l name ps d ts ph em nt now with
      h | ⟨pd, pt, tbl, rest, _, _, _, _, _, hf, heq⟩
    · rw [h] at hp; exact absurd hp hnew
    · rw [heq] at hp
      rcases mem_dictInsert hp with h1 | h1
      · exact absurd h1 hnew
      · subst h1
        have htbl : tbl ∈ find_available_tables l pd pt ps := by
          rw [hf]; exact List.mem_cons_self _ _
        have hnc := (mem_find_available.1 htbl).2.2
        have := hasConflict_eq_false_iff.1 hnc q hq
        simpa [newReservation, slotKey] using this

/-- Witness for C1: booking Bob at 20:00 into a ledger holding Alice's
19:00 reservation creates a record whose slot differs from Alice's. -/
theorem C1_no_double_booking_witness :
    slotKey resAlice ≠
      slotKey (newReservation "RES0002" "Bob" 2 ⟨2025, 12, 15⟩ ⟨20, 0⟩
        ⟨1, 2, "Window"⟩ "" "" "" "T2") :=
  C1_no_double_booking.2 sampleLedger "Bob" 2 "2025-12-15" "20:00" "" "" "" "T2"
    ("RES0002", newReservation "RES0002" "Bob" 2 ⟨2025, 12, 15⟩ ⟨20, 0⟩
      ⟨1, 2, "Window"⟩ "" "" "" "T2")
    (by decide) (by decide) ("RES0001", resAlice) (by decide)

/-- **C2**: the claim (ids never reused, even after cancellation) is
right and the code is wrong: `generate_reservation_id` documents itself
as "Generate a unique reservation ID" but computes
`RES{len(reservations)+1:04d}`, so after booking `RES0001` and
cancelling it, the next successful booking is assigned `RES0001` again —
the same id handed out twice, to Alice and then to Bob. -/
theorem C2_id_reused_after_cancellation :
    (run [Step.book "Alice" 2 "2025-12-15" "19:00" "" "" "" "T1"]).map Prod.fst
        = ["RES0001"] ∧
    run [Step.book "Alice" 2 "2025-12-15" "19:00" "" "" "" "T1",
         Step.cancel "RES0001"] = [] ∧
    (run [Step.book "Alice" 2 "2025-12-15" "19:00" "" "" "" "T1",
          Step.cancel "RES0001",
          Step.book "Bob" 3 "2025-12-15" "19:00" "" "" "" "T2"]).map
        (fun p => (p.1, p.2.customer_name)) = [("RES0001", "Bob")] := by
  exact ⟨by decide, by decide, by decide⟩

theorem lookup_dictDel (l : Ledger) (k : String) : (dictDel l k).lookup k = none := by
  induction l with
  | nil => rfl
  | cons a l ih =>
    obtain ⟨a1, a2⟩ := a
    unfold dictDel at ih ⊢
    rw [List.filter_cons]
    by_cases h : a1 = k
    · rw [if_neg (by simp [h])]
      exact ih
    · rw [if_pos (by simpa using h)]
      have hbeq : (k == a1) = false := beq_eq_false_iff_ne.2 (fun hk => h hk.symm)
      simp only [List.lookup, hbeq]
      exact ih

theorem mem_dictDel {l : Ledger} {k : String} {p : String × Reservation} :
    p ∈ dictDel l k ↔ p ∈ l ∧ p.1 ≠ k := by
  unfold dictDel
  simp [List.mem_filter]

set_option maxRecDepth 8000 in
/-- **C3** fails on the code: cancellation is a hard delete
(`del reservations[reservation_id]`), not a soft delete.  Concretely:
cancelling `RES0001` in a one-entry ledger succeeds (the returned
message is the cancellation confirmation, not the not-found error), yet
the resulting ledger is empty — no record with status `Cancelled`
remains visible. -/
theorem C3_counterexample :
    (cancel_reservation sampleLedger "RES0001").1 = cancelledMsg "RES0001" resAlice ∧
    (cancel_reservation sampleLedger "RES0001").1 ≠ notFoundMsg "RES0001" ∧
    (cancel_reservation sampleLedger "RES0001").2 = [] := by
  exact ⟨by decide, by decide, by decide⟩

/-- **C3 (amended)**: cancellation is a hard delete.  For every ledger
and every id whose canonical form is present, `cancel_reservation`
returns the cancellation confirmation and physically removes the record:
the id no longer resolves, every other record is carried over unchanged,
and every surviving record was already present — so the cancelled
reservation is no longer visible to `view_reservations`. -/
theorem C3_cancellation_hard_deletes (l : Ledger) (rid0 : String) (res : Reservation)
    (h : l.lookup (pyStrip (pyUpper rid0)) = some res) :
    (cancel_reservation l rid0).1 = cancelledMsg (pyStrip (pyUpper rid0)) res ∧
    (cancel_reservation l rid0).2.lookup (pyStrip (pyUpper rid0)) = none ∧
    (∀ p ∈ l, p.1 ≠ pyStrip (pyUpper rid0) → p ∈ (cancel_reservation l rid0).2) ∧
    (∀ p ∈ (cancel_reservation l rid0).2, p ∈ l ∧ p.1 ≠ pyStrip (pyUpper rid0)) := by
  unfold cancel_reservation
  dsimp only
  rw [h]
  refine ⟨rfl, lookup_dictDel l _, ?_, ?_⟩
  · intro p hp hne
    exact mem_dictDel.2 ⟨hp, hne⟩
  · intro p hp
    exact mem_dictDel.1 hp

/-- Witness for C3 (amended): cancelling `res0001` (note the
case-insensitive id) in the sample ledger deletes Alice's record. -/
theorem C3_cancellation_hard_deletes_witness :
    (cancel_reservation sampleLedger "res0001").2.lookup (pyStrip (pyUpper "res0001")) = none :=
  (C3_cancellation_hard_deletes sampleLedger "res0001" resAlice (by decide)).2.1

set_option maxRecDepth 8000 in
/-- **C4** fails on the code: there is no `AlreadyCancelledError`.  After
a successful cancellation the record is deleted, so a second
`cancel_reservation` on the same id takes the not-found branch — it
returns exactly the same not-found error an unknown id gets, with the
ledger unchanged. -/
theorem C4_counterexample :
    (cancel_reservation sampleLedger "RES0001").2 = [] ∧
    cancel_reservation (cancel_reservation sampleLedger "RES0001").2 "RES0001"
        = (notFoundMsg "RES0001", []) ∧
    (cancel_reservation [] "RES9999").1 = notFoundMsg "RES9999" := by
  exact ⟨by decide, by decide, by decide⟩

/-- **C4 (amended)**: `cancel_reservation` fails with the not-found error
(leaving the ledger unchanged) when the canonical id is absent; and for
every id whose first cancellation succeeds, a second `cancel_reservation`
on the same id fails with the same not-found error — it never silently
succeeds twice (there is no separate already-cancelled error). -/
theorem C4_cancellation_errors (l : Ledger) (rid0 : String) :
    (l.lookup (pyStrip (pyUpper rid0)) = none →
      cancel_reservation l rid0 = (notFoundMsg (pyStrip (pyUpper rid0)), l)) ∧
    (∀ res, l.lookup (pyStrip (pyUpper rid0)) = some res →
      cancel_reservation (cancel_reservation l rid0).2 rid0 =
        (notFoundMsg (pyStrip (pyUpper rid0)), (cancel_reservation l rid0).2)) := by
  constructor
  · intro h
    unfold cancel_reservation
    dsimp only
    rw [h]
  · intro res h
    have h2 : (cancel_reservation l rid0).2 = dictDel l (pyStrip (pyUpper rid0)) := by
      unfold cancel_reservation
      dsimp only
      rw [h]
    rw [h2]
    unfold cancel_reservation
    dsimp only
    rw [lookup_dictDel]

/-- Witness for C4 (amended): the second cancellation of `RES0001` in the
sample ledger reports not-found on the emptied ledger. -/
theorem C4_cancellation_errors_witness :
    cancel_reservation (cancel_reservation sampleLedger "RES0001").2 "RES0001" =
      (notFoundMsg (pyStrip (pyUpper "RES0001")), (cancel_reservation sampleLedger "RES0001").2) :=
  (C4_cancellation_errors sampleLedger "RES0001").2 resAlice (by decide)

theorem lookup_replace (k : String) (v : Reservation) :
    ∀ l : Ledger, k ∈ l.map Prod.fst →
      (l.map (fun p => if p.1 = k then (k, v) else p)).lookup k = some v := by
  intro l
  induction l with
  | nil => intro h; simp at h
  | cons a l ih =>
    intro h
    obtain ⟨a1, a2⟩ := a
    rw [List.map_cons]
    by_cases hk : a1 = k
    · rw [if_pos hk]
      simp [List.lookup]
    · rw [if_neg hk]
      have hmem : k ∈ l.map Prod.fst := by
        rw [List.map_cons] at h
        rcases List.mem_cons.1 h with h1 | h1
        · exact absurd h1.symm hk
        · exact h1
      have hbeq : (k == a1) = false := beq_eq_false_iff_ne.2 (fun e => hk e.symm)
      simp only [List.lookup, hbeq]
      exact ih hmem

theorem lookup_append_new (k : String) (v : Reservation) :
    ∀ l : Ledger, k ∉ l.map Prod.fst → (l ++ [(k, v)]).lookup k = some v := by
  intro l
  induction l with
  | nil => intro _; simp [List.lookup]
  | cons a l ih =>
    intro h
    obtain ⟨a1, a2⟩ := a
    rw [List.map_cons, List.mem_cons, not_or] at h
    rw [List.cons_append]
    have hbeq : (k == a1) = false := beq_eq_false_iff_ne.2 (by simpa using h.1)
    simp only [List.lookup, hbeq]
    exact ih h.2

theorem lookup_dictInsert (l : Ledger) (k : String) (v : Reservation) :
    (dictInsert l k v).lookup k = some v := by
  unfold dictInsert
  split
  · next hc => exact lookup_replace k v l (by simpa using hc)
  · next hc => exact lookup_append_new k v l (by simpa using hc)

/-- Reduction of `book_table` on its success path. -/
theorem book_table_success (l : Ledger) (name : String) (ps : Int)
    (d ts ph em nt now : String) (pd : Date) (pt : TimeOfDay)
    (tbl : Table) (rest : List Table)
    (hd : parse_date d = some pd) (ht : parse_time ts = some pt)
    (hv : is_valid_timeslot pt = true) (hw : is_within_hours pt = true)
    (h1 : 1 ≤ ps) (h8 : ps ≤ 8)
    (hf : find_available_tables l pd pt ps = tbl :: rest) :
    book_table l name ps d ts ph em nt now =
      (confirmMsg (generate_reservation_id l) name ps pd pt tbl ph em nt,
       dictInsert l (generate_reservation_id l)
         (newReservation (generate_reservation_id l) name ps pd pt tbl ph em nt now)) := by
  unfold book_table
  rw [hd]
  dsimp only
  rw [ht]
  dsimp only
  rw [if_neg (by simp [hv]), if_neg (by simp [hw]),
    if_neg (by simp only [Bool.or_eq_true, decide_eq_true_eq, not_or, not_lt]; omega),
    hf]

/-- Under the success conditions, the booking stores the head of the
candidate list under the freshly generated id. -/
theorem book_stores_head (l : Ledger) (name : String) (ps : Int)
    (d ts ph em nt now : String) (pd : Date) (pt : TimeOfDay)
    (hd : parse_date d = some pd) (ht : parse_time ts = some pt)
    (hv : is_valid_timeslot pt = true) (hw : is_within_hours pt = true)
    (h1 : 1 ≤ ps) (h8 : ps ≤ 8)
    (hav : find_available_tables l pd pt ps ≠ []) :
    (book_table l name ps d ts ph em nt now).2.lookup (generate_reservation_id l) =
      some (newReservation (generate_reservation_id l) name ps pd pt
        ((find_available_tables l pd pt ps).head hav) ph em nt now) := by
  obtain ⟨tbl, rest, hf⟩ : ∃ tbl rest, find_available_tables l pd pt ps = tbl :: rest := by
    cases hfa : find_available_tables l pd pt ps with
    | nil => exact absurd hfa hav
    | cons a b => exact ⟨a, b, rfl⟩
  have hh : (find_available_tables l pd pt ps).head hav = tbl := by
    have e1 : (find_available_tables l pd pt ps).head? = some tbl := by rw [hf]; rfl
    rw [List.head?_eq_head hav] at e1
    exact Option.some.inj e1
  rw [book_table_success l name ps d ts ph em nt now pd pt tbl rest hd ht hv hw h1 h8 hf]
  dsimp only
  rw [lookup_dictInsert, hh]

set_option maxRecDepth 8000 in
/-- **C5** fails on the code: `book_table` never validates `customerName`.
Booking with an empty name on the empty ledger succeeds — it returns the
confirmation message and creates reservation `RES0001` with
`customer_name = ""` — instead of failing with a `ValidationError` and
creating nothing. -/
theorem C5_counterexample :
    (book_table [] "" 2 "2025-12-15" "19:00" "" "" "" "T1").2 =
      [("RES0001",
        newReservation "RES0001" "" 2 ⟨2025, 12, 15⟩ ⟨19, 0⟩ ⟨1, 2, "Window"⟩ "" "" "" "T1")] ∧
    (book_table [] "" 2 "2025-12-15" "19:00" "" "" "" "T1").1 =
      confirmMsg "RES0001" "" 2 ⟨2025, 12, 15⟩ ⟨19, 0⟩ ⟨1, 2, "Window"⟩ "" "" "" := by
  exact ⟨by decide, by decide⟩

/-- **C5 (amended)**: `book_table` performs no customer-name validation.
For every ledger and every input whose date and time parse, lie on the
slot grid and within hours, with party size in 1..8 and at least one
candidate table, booking with an empty `customerName` succeeds and
stores — under the freshly generated id — a reservation whose
`customer_name` is the empty string. -/
theorem C5_empty_name_accepted (l : Ledger) (ps : Int) (d ts ph em nt now : String)
    (pd : Date) (pt : TimeOfDay)
    (hd : parse_date d = some pd) (ht : parse_time ts = some pt)
    (hv : is_valid_timeslot pt = true) (hw : is_within_hours pt = true)
    (h1 : 1 ≤ ps) (h8 : ps ≤ 8)
    (hav : find_available_tables l pd pt ps ≠ []) :
    (book_table l "" ps d ts ph em nt now).2.lookup (generate_reservation_id l) =
      some (newReservation (generate_reservation_id l) "" ps pd pt
        ((find_available_tables l pd pt ps).head hav) ph em nt now) :=
  book_stores_head l "" ps d ts ph em nt now pd pt hd ht hv hw h1 h8 hav

/-- Witness for C5 (amended): the empty-name booking on the empty ledger
stores Alice-less `RES0001`. -/
theorem C5_empty_name_accepted_witness :
    (book_table [] "" 2 "2025-12-15" "19:00" "" "" "" "T1").2.lookup
        (generate_reservation_id []) =
      some (newReservation (generate_reservation_id []) "" 2 ⟨2025, 12, 15⟩ ⟨19, 0⟩
        ((find_available_tables [] ⟨2025, 12, 15⟩ ⟨19, 0⟩ 2).head (by decide)) "" "" "" "T1") :=
  C5_empty_name_accepted [] 2 "2025-12-15" "19:00" "" "" "" "T1" ⟨2025, 12, 15⟩ ⟨19, 0⟩
    (by decide) (by decide) (by decide) (by decide) (by decide) (by decide) (by decide)

theorem find_available_sorted (l : Ledger) (d : Date) (t : TimeOfDay) (ps : Int) :
    (find_available_tables l d t ps).Pairwise (fun a b => a.id ≤ b.id) := by
  have h : TABLES.Pairwise (fun a b => a.id ≤ b.id) := by decide
  unfold find_available_tables
  exact List.Pairwise.sublist
    (List.Sublist.trans (List.filter_sublist _) (List.filter_sublist _)) h

/-- **C6**: first-fit tie-break.  Under the success conditions of
`book_table`, the stored reservation's table is the head of the candidate
list, and that head is a qualifying table (capacity at least the party
size, no conflicting reservation at the canonical slot) whose id is ≤ the
id of every qualifying table — first-fit in id-ascending inventory order,
not best-fit by capacity. -/
theorem C6_first_fit (l : Ledger) (name : String) (ps : Int)
    (d ts ph em nt now : String) (pd : Date) (pt : TimeOfDay)
    (hd : parse_date d = some pd) (ht : parse_time ts = some pt)
    (hv : is_valid_timeslot pt = true) (hw : is_within_hours pt = true)
    (h1 : 1 ≤ ps) (h8 : ps ≤ 8)
    (hav : find_available_tables l pd pt ps ≠ []) :
    ((book_table l name ps d ts ph em nt now).2.lookup (generate_reservation_id l) =
      some (newReservation (generate_reservation_id l) name ps pd pt
        ((find_available_tables l pd pt ps).head hav) ph em nt now)) ∧
    ((find_available_tables l pd pt ps).head hav ∈ TABLES) ∧
    (ps ≤ (((find_available_tables l pd pt ps).head hav).capacity : Int)) ∧
    (hasConflict l pd pt ((find_available_tables l pd pt ps).head hav).id = false) ∧
    (∀ t2 ∈ TABLES, ps ≤ (t2.capacity : Int) → hasConflict l pd pt t2.id = false →
      ((find_available_tables l pd pt ps).head hav).id ≤ t2.id) := by
  have hmem : (find_available_tables l pd pt ps).head hav ∈
      find_available_tables l pd pt ps := List.head_mem hav
  have hq := mem_find_available.1 hmem
  refine ⟨book_stores_head l name ps d ts ph em nt now pd pt hd ht hv hw h1 h8 hav,
    hq.1, hq.2.1, hq.2.2, ?_⟩
  intro t2 ht2 hcap hnc
  have ht2f : t2 ∈ find_available_tables l pd pt ps :=
    mem_find_available.2 ⟨ht2, hcap, hnc⟩
  obtain ⟨tbl, rest, hf⟩ : ∃ tbl rest, find_available_tables l pd pt ps = tbl :: rest := by
    cases hfa : find_available_tables l pd pt ps with
    | nil => exact absurd hfa hav
    | cons a b => exact ⟨a, b, rfl⟩
  have hh : (find_available_tables l pd pt ps).head hav = tbl := by
    have e1 : (find_available_tables l pd pt ps).head? = some tbl := by rw [hf]; rfl
    rw [List.head?_eq_head hav] at e1
    exact Option.some.inj e1
  have hsorted := find_available_sorted l pd pt ps
  rw [hf] at hsorted ht2f
  rw [hh]
  rcases List.mem_cons.1 ht2f with h2 | h2
  · rw [h2]
  · exact (List.pairwise_cons.1 hsorted).1 t2 h2

/-- Witness for C6: booking a party of 5 into the sample ledger picks
table 5 (the lowest-id table seating at least 5). -/
theorem C6_first_fit_witness :
    (book_table sampleLedger "Carol" 5 "2025-12-15" "19:00" "" "" "" "T3").2.lookup
        (generate_reservation_id sampleLedger) =
      some (newReservation (generate_reservation_id sampleLedger) "Carol" 5
        ⟨2025, 12, 15⟩ ⟨19, 0⟩
        ((find_available_tables sampleLedger ⟨2025, 12, 15⟩ ⟨19, 0⟩ 5).head (by decide))
        "" "" "" "T3") :=
  (C6_first_fit sampleLedger "Carol" 5 "2025-12-15" "19:00" "" "" "" "T3"
    ⟨2025, 12, 15⟩ ⟨19, 0⟩ (by decide) (by decide) (by decide) (by decide)
    (by decide) (by decide) (by decide)).1

/-- **C7**: half-open operating hours.  For every valid time of day,
`is_within_hours` holds iff `opening ≤ t < closing` (in minutes); the
opening time 11:00 is accepted and the closing time 21:00 rejected; the
enumerated slot sequence starts at the opening time, ascends in
30-minute steps, stays on the half-hour grid within hours, and excludes
the closing time itself. -/
theorem C7_half_open_hours :
    (∀ t : TimeOfDay, t.minute < 60 →
      (is_within_hours t = true ↔
        (OPENING_TIME.toMinutes ≤ t.toMinutes ∧ t.toMinutes < CLOSING_TIME.toMinutes))) ∧
    is_within_hours OPENING_TIME = true ∧
    is_within_hours CLOSING_TIME = false ∧
    get_time_slots.head? = some OPENING_TIME ∧
    List.Chain' (fun a b => b.toMinutes = a.toMinutes + SLOT_DURATION) get_time_slots ∧
    (∀ s ∈ get_time_slots, is_valid_timeslot s = true ∧ is_within_hours s = true) ∧
    CLOSING_TIME ∉ get_time_slots := by
  refine ⟨?_, by decide, by decide, by decide, ?_, by decide, by decide⟩
  case refine_2 =>
    have he : get_time_slots =
        [⟨11, 0⟩, ⟨11, 30⟩, ⟨12, 0⟩, ⟨12, 30⟩, ⟨13, 0⟩, ⟨13, 30⟩, ⟨14, 0⟩, ⟨14, 30⟩,
         ⟨15, 0⟩, ⟨15, 30⟩, ⟨16, 0⟩, ⟨16, 30⟩, ⟨17, 0⟩, ⟨17, 30⟩, ⟨18, 0⟩, ⟨18, 30⟩,
         ⟨19, 0⟩, ⟨19, 30⟩, ⟨20, 0⟩, ⟨20, 30⟩] := by rfl
    rw [he]
    simp only [List.chain'_cons, List.chain'_singleton]
    decide
  intro t hm
  obtain ⟨h, m⟩ := t
  simp only [TimeOfDay.minute] at hm
  simp only [is_within_hours, TimeOfDay.leb, TimeOfDay.ltb, TimeOfDay.toMinutes,
    OPENING_TIME, CLOSING_TIME, TimeOfDay.mk.injEq, Bool.and_eq_true, Bool.or_eq_true,
    decide_eq_true_eq]
  omega

/-- Witness for C7: 19:00 is a valid time and lies within hours. -/
theorem C7_half_open_hours_witness :
    OPENING_TIME.toMinutes ≤ (TimeOfDay.mk 19 0).toMinutes ∧
      (TimeOfDay.mk 19 0).toMinutes < CLOSING_TIME.toMinutes :=
  (C7_half_open_hours.1 ⟨19, 0⟩ (by decide)).mp (by decide)

set_option maxHeartbeats 1000000 in
theorem parse_twelveColon_h1 : ∀ m : Fin 60, ∀ sp pm up1 up2 : Bool,
    parse_time (twelveColon 1 m.val sp pm up1 up2) =
      some ⟨hour12to24 1 pm, m.val⟩ := by decide

set_option maxHeartbeats 1000000 in
theorem parse_twelveColon_h2 : ∀ m : Fin 60, ∀ sp pm up1 up2 : Bool,
    parse_time (twelveColon 2 m.val sp pm up1 up2) =
      some ⟨hour12to24 2 pm, m.val⟩ := by decide

set_option maxHeartbeats 1000000 in
theorem parse_twelveColon_h3 : ∀ m : Fin 60, ∀ sp pm up1 up2 : Bool,
    parse_time (twelveColon 3 m.val sp pm up1 up2) =
      some ⟨hour12to24 3 pm, m.val⟩ := by decide

set_option maxHeartbeats 1000000 in
theorem parse_twelveColon_h4 : ∀ m : Fin 60, ∀ sp pm up1 up2 : Bool,
    parse_time (twelveColon 4 m.val sp pm up1 up2) =
      some ⟨hour12to24 4 pm, m.val⟩ := by decide

set_option maxHeartbeats 1000000 in
theorem parse_twelveColon_h5 : ∀ m : Fin 60, ∀ sp pm up1 up2 : Bool,
    parse_time (twelveColon 5 m.val sp pm up1 up2) =
      some ⟨hour12to24 5 pm, m.val⟩ := by decide

set_option maxHeartbeats 1000000 in
theorem parse_twelveColon_h6 : ∀ m : Fin 60, ∀ sp pm up1 up2 : Bool,
    parse_time (twelveColon 6 m.val sp pm up1 up2) =
      some ⟨hour12to24 6 pm, m.val⟩ := by decide

set_option maxHeartbeats 1000000 in
theorem parse_twelveColon_h7 : ∀ m : Fin 60, ∀ sp pm up1 up2 : Bool,
    parse_time (twelveColon 7 m.val sp pm up1 up2) =
      some ⟨hour12to24 7 pm, m.val⟩ := by decide

set_option maxHeartbeats 1000000 in
theorem parse_twelveColon_h8 : ∀ m : Fin 60, ∀ sp pm up1 up2 : Bool,
    parse_time (twelveColon 8 m.val sp pm up1 up2) =
      some ⟨hour12to24 8 pm, m.val⟩ := by decide

set_option maxHeartbeats 1000000 in
theorem parse_twelveColon_h9 : ∀ m : Fin 60, ∀ sp pm up1 up2 : Bool,
    parse_time (twelveColon 9 m.val sp pm up1 up2) =
      some ⟨hour12to24 9 pm, m.val⟩ := by decide

set_option maxHeartbeats 1000000 in
theorem parse_twelveColon_h10 : ∀ m : Fin 60, ∀ sp pm up1 up2 : Bool,
    parse_time (twelveColon 10 m.val sp pm up1 up2) =
      some ⟨hour12to24 10 pm, m.val⟩ := by decide

set_option maxHeartbeats 1000000 in
theorem parse_twelveColon_h11 : ∀ m : Fin 60, ∀ sp pm up1 up2 : Bool,
    parse_time (twelveColon 11 m.val sp pm up1 up2) =
      some ⟨hour12to24 11 pm, m.val⟩ := by decide

set_option maxHeartbeats 1000000 in
theorem parse_twelveColon_h12 : ∀ m : Fin 60, ∀ sp pm up1 up2 : Bool,
    parse_time (twelveColon 12 m.val sp pm up1 up2) =
      some ⟨hour12to24 12 pm, m.val⟩ := by decide

theorem parse_twelveColon_all (h12 : Fin 12) (m : Fin 60) (sp pm up1 up2 : Bool) :
    parse_time (twelveColon (h12.val + 1) m.val sp pm up1 up2) =
      some ⟨hour12to24 (h12.val + 1) pm, m.val⟩ :=
  match h12 with
  | ⟨0, _⟩ => parse_twelveColon_h1 m sp pm up1 up2
  | ⟨1, _⟩ => parse_twelveColon_h2 m sp pm up1 up2
  | ⟨2, _⟩ => parse_twelveColon_h3 m sp pm up1 up2
  | ⟨3, _⟩ => parse_twelveColon_h4 m sp pm up1 up2
  | ⟨4, _⟩ => parse_twelveColon_h5 m sp pm up1 up2
  | ⟨5, _⟩ => parse_twelveColon_h6 m sp pm up1 up2
  | ⟨6, _⟩ => parse_twelveColon_h7 m sp pm up1 up2
  | ⟨7, _⟩ => parse_twelveColon_h8 m sp pm up1 up2
  | ⟨8, _⟩ => parse_twelveColon_h9 m sp pm up1 up2
  | ⟨9, _⟩ => parse_twelveColon_h10 m sp pm up1 up2
  | ⟨10, _⟩ => parse_twelveColon_h11 m sp pm up1 up2
  | ⟨11, _⟩ => parse_twelveColon_h12 m sp pm up1 up2

set_option maxHeartbeats 2000000 in
theorem parse_twentyFour_canon : ∀ h12 : Fin 12, ∀ m : Fin 60, ∀ pm : Bool,
    parse_time (twentyFour (hour12to24 (h12.val + 1) pm) m.val) =
      some ⟨hour12to24 (h12.val + 1) pm, m.val⟩ := by decide

set_option maxHeartbeats 1000000 in
theorem parse_twelveBare_all : ∀ h12 : Fin 12, ∀ sp pm up1 up2 : Bool,
    parse_time (twelveBare (h12.val + 1) sp pm up1 up2) =
      some ⟨hour12to24 (h12.val + 1) pm, 0⟩ := by decide

/-- **C8**: time-normalization equivalence.  `"7pm"`, `"19:00"` and
`"7:00 PM"` all parse to the canonical 19:00; and in general every
12-hour input — with or without a colon, with or without a space before
the AM/PM suffix, in any letter case — parses to the same canonical
value as the equivalent 24-hour `HH:MM` form. -/
theorem C8_time_normalization :
    (parse_time "7pm" = some ⟨19, 0⟩ ∧ parse_time "19:00" = some ⟨19, 0⟩ ∧
     parse_time "7:00 PM" = some ⟨19, 0⟩) ∧
    (∀ h12 : Fin 12, ∀ m : Fin 60, ∀ sp pm up1 up2 : Bool,
      parse_time (twelveColon (h12.val + 1) m.val sp pm up1 up2) =
        some ⟨hour12to24 (h12.val + 1) pm, m.val⟩ ∧
      parse_time (twentyFour (hour12to24 (h12.val + 1) pm) m.val) =
        some ⟨hour12to24 (h12.val + 1) pm, m.val⟩ ∧
      (m.val = 0 → parse_time (twelveBare (h12.val + 1) sp pm up1 up2) =
        some ⟨hour12to24 (h12.val + 1) pm, 0⟩)) :=
  ⟨⟨by decide, by decide, by decide⟩,
   fun h12 m sp pm up1 up2 =>
     ⟨parse_twelveColon_all h12 m sp pm up1 up2,
      parse_twentyFour_canon h12 m pm,
      fun _ => parse_twelveBare_all h12 sp pm up1 up2⟩⟩

/-- Witness for C8: the bare form `"7pm"` parses to canonical 19:00. -/
theorem C8_time_normalization_witness :
    parse_time (twelveBare 7 false true false false) = some ⟨19, 0⟩ :=
  (C8_time_normalization.2 ⟨6, by decide⟩ ⟨0, by decide⟩ false true false false).2.2 rfl

/-- **C9**: capacity monotonicity.  For every ledger state, date, slot
and party sizes `1 ≤ m ≤ n`, every table in the candidate set computed
for party size `n` is also in the candidate set computed for `m`. -/
theorem C9_capacity_antitone (l : Ledger) (d : Date) (t : TimeOfDay) (m n : Int)
    (h1 : 1 ≤ m) (hmn : m ≤ n) (tb : Table)
    (h : tb ∈ find_available_tables l d t n) :
    tb ∈ find_available_tables l d t m := by
  have hq := mem_find_available.1 h
  exact mem_find_available.2 ⟨hq.1, le_trans hmn hq.2.1, hq.2.2⟩

/-- Witness for C9: table 3 qualifies for a party of 4 in the sample
ledger, hence also for a party of 2. -/
theorem C9_capacity_antitone_witness :
    (⟨3, 4, "Main Hall"⟩ : Table) ∈
      find_available_tables sampleLedger ⟨2025, 12, 15⟩ ⟨19, 0⟩ 2 :=
  C9_capacity_antitone sampleLedger ⟨2025, 12, 15⟩ ⟨19, 0⟩ 2 4 (by decide) (by decide)
    ⟨3, 4, "Main Hall"⟩ (by decide)

/-- **C10**: read operations are mutation-free.  For every ledger state
and all inputs, `check_availability`, `view_reservations` and
`get_available_timeslots` return the reservations ledger exactly as it
was, on every path (success or error). -/
theorem C10_reads_leave_ledger (l : Ledger) (d ts : String) (ps : Int)
    (od ocn : Option String) :
    (check_availability l d ts ps).2 = l ∧
    (view_reservations l od ocn).2 = l ∧
    (get_available_timeslots l d ps).2 = l := by
  refine ⟨?_, ?_, ?_⟩
  · unfold check_availability
    dsimp only
    repeat' split
    all_goals rfl
  · unfold view_reservations
    dsimp only
    repeat' split
    all_goals rfl
  · unfold get_available_timeslots
    dsimp only
    repeat' split
    all_goals rfl

end ReservationMCP
